import Mathlib

/-!
Verification of the collaborative-editor synchronization engine.

The definitions below are a shallow embedding of the TypeScript sources:

* `transformStep` / `transformCursorPosition` embed the client function
  `transformCursorPosition` (src/src/CollaborativeEditor.tsx, lines 48-84,
  identical copy in src/unnamed/part_003, lines 182-218);
* `transformHighlightRange` embeds `transformHighlightRange`
  (src/unnamed/part_003, lines 221-228);
* `transformActiveHighlights` embeds the highlight-transform block of the
  client text-change handler (src/unnamed/part_003, lines 769-785);
* the server model (`ServerState`, `serverStep`, ...) embeds the socket.io
  server in src/unnamed/part_000: `getOrCreateDocument` and the handlers of
  the `user-join`, `text-change`, `reset-document`, `selection-change` and
  `highlight-change` events.

Machine maps (`Map` in JS) are embedded as association lists with JS `Map`
semantics: `set` replaces in place when the key exists and appends
otherwise, `get` returns the first binding.
-/

namespace CollabEditor

/-- A single Quill delta operation, as discriminated by the branches of the
client's `transformCursorPosition` loop: a numeric retain, an object-valued
retain (its length is read as `0` by the `typeof` check), a string insert,
an embed insert (length `1`), and a delete. -/
inductive QOp where
  | retain (n : Nat)
  | retainObj
  | insert (s : String)
  | insertEmbed
  | delete (n : Nat)
deriving DecidableEq, Repr

/-- One iteration of the `for (const op of delta.ops)` loop of
`transformCursorPosition` (src/src/CollaborativeEditor.tsx lines 53-80).
The accumulator is the pair `(transformedIndex, currentIndex)`. -/
def transformStep (cursorIndex : Int) (acc : Int × Int) (op : QOp) : Int × Int :=
  match op with
  | .retain n => (acc.1, acc.2 + n)
  | .retainObj => (acc.1, acc.2 + 0)
  | .insert s =>
      (if acc.2 < cursorIndex then acc.1 + s.length else acc.1, acc.2 + s.length)
  | .insertEmbed =>
      (if acc.2 < cursorIndex then acc.1 + 1 else acc.1, acc.2 + 1)
  | .delete n =>
      let deleteStart := acc.2
      let deleteEnd := acc.2 + n
      (if deleteEnd ≤ cursorIndex then acc.1 - n
       else if deleteStart < cursorIndex then deleteStart
       else acc.1,
       acc.2)

/-- `transformCursorPosition(cursorIndex, delta)` from
src/src/CollaborativeEditor.tsx lines 48-84: fold the loop body over the
operation list starting from `transformedIndex = cursorIndex`,
`currentIndex = 0`, and floor the result at `0`. -/
def transformCursorPosition (cursorIndex : Int) (delta : List QOp) : Int :=
  max 0 ((delta.foldl (transformStep cursorIndex) (cursorIndex, 0)).1)

/-- A Quill selection range `{ index, length }`. -/
structure Range where
  index : Int
  length : Int
deriving DecidableEq, Repr

/-- `transformHighlightRange(range, delta)` from src/unnamed/part_003
lines 221-228: transform both endpoints independently and clamp the new
length at `0`. -/
def transformHighlightRange (range : Range) (delta : List QOp) : Range :=
  let startIndex := transformCursorPosition range.index delta
  let endIndex := transformCursorPosition (range.index + range.length) delta
  { index := startIndex, length := max 0 (endIndex - startIndex) }

/-- Claim C1 (corrected): the claim as frozen states that an insertion whose
insertion point equals `p` pushes the result forward, with
`transformPosition(2, [Retain(2), Insert("xyz")]) == 5`.  The code uses the
strict comparison `currentIndex < cursorIndex`, so an insertion exactly at
`p` leaves the result unchanged and the cited example evaluates to `2`. -/
theorem C1_counterexample :
    transformCursorPosition 2 [QOp.retain 2, QOp.insert "xyz"] = 2 ∧
    ¬ transformCursorPosition 2 [QOp.retain 2, QOp.insert "xyz"] = 5 := by
  decide

/-- Claim C1 (amended): when the scan of `transformCursorPosition` reaches an
Insert, the result is pushed forward by the inserted length exactly when the
insertion point lies strictly before `p`; an insertion exactly at `p` (or
after it) leaves the result unchanged.  In particular
`transformPosition(2, [Retain(2), Insert("xyz")]) == 2` and for `p = 1` the
result stays `1`. -/
theorem C1_insert_shift (p ti ci : Int) (s : String) :
    (ci < p → (transformStep p (ti, ci) (QOp.insert s)).1 = ti + s.length) ∧
    (p ≤ ci → (transformStep p (ti, ci) (QOp.insert s)).1 = ti) ∧
    transformCursorPosition 2 [QOp.retain 2, QOp.insert "xyz"] = 2 ∧
    transformCursorPosition 1 [QOp.retain 2, QOp.insert "xyz"] = 1 := by
  refine ⟨?_, ?_, by decide, by decide⟩
  · intro h
    simp [transformStep, h]
  · intro h
    simp [transformStep, not_lt.mpr h]

/-- Witness for C1: the two conditional clauses of `C1_insert_shift`
evaluated at concrete inputs. -/
theorem C1_insert_shift_witness :
    (transformStep 5 ((3 : Int), (2 : Int)) (QOp.insert "ab")).1 = 3 + ("ab" : String).length ∧
    (transformStep 2 ((3 : Int), (2 : Int)) (QOp.insert "ab")).1 = 3 :=
  ⟨(C1_insert_shift 5 3 2 "ab").1 (by decide),
   (C1_insert_shift 2 3 2 "ab").2.1 (by decide)⟩

/-- Claim C2 (confirmed): for a `Delete(n)` reached with scan cursor `ci`
(deleted span `[ci, ci+n)`), the result drops by `n` when the span ends at
or before `p`, collapses to the start of the deletion when `p` falls
strictly inside the span, and is unchanged when the span starts at or after
`p`; in particular `transformPosition(6, [Retain(5), Delete(3)]) == 5`. -/
theorem C2_delete_cases (p ti ci : Int) (n : Nat) :
    (ci + n ≤ p → (transformStep p (ti, ci) (QOp.delete n)).1 = ti - n) ∧
    (ci < p → p < ci + n → (transformStep p (ti, ci) (QOp.delete n)).1 = ci) ∧
    (p ≤ ci → (transformStep p (ti, ci) (QOp.delete n)).1 = ti) ∧
    transformCursorPosition 6 [QOp.retain 5, QOp.delete 3] = 5 := by
  refine ⟨?_, ?_, ?_, by decide⟩
  · intro h
    simp [transformStep, h]
  · intro h1 h2
    have hne : ¬ (ci + (n : Int) ≤ p) := by omega
    simp [transformStep, hne, h1]
  · intro h
    by_cases h1 : ci + (n : Int) ≤ p
    · simp [transformStep, h1]
      omega
    · have h2 : ¬ ci < p := by omega
      simp [transformStep, h1, h2]

/-- Witness for C2: the three conditional clauses of `C2_delete_cases`
evaluated at concrete inputs. -/
theorem C2_delete_cases_witness :
    (transformStep 10 ((7 : Int), (2 : Int)) (QOp.delete 3)).1 = 7 - (3 : Nat) ∧
    (transformStep 4 ((7 : Int), (2 : Int)) (QOp.delete 3)).1 = 2 ∧
    (transformStep 1 ((7 : Int), (2 : Int)) (QOp.delete 3)).1 = 7 :=
  ⟨(C2_delete_cases 10 7 2 3).1 (by decide),
   (C2_delete_cases 4 7 2 3).2.1 (by decide) (by decide),
   (C2_delete_cases 1 7 2 3).2.2.1 (by decide)⟩

/-- Evaluation of the position transform over `[Retain(d), Delete(n)]`. -/
theorem tp_retain_delete (p : Int) (d n : Nat) :
    transformCursorPosition p [QOp.retain d, QOp.delete n] =
      max 0 (if (d : Int) + n ≤ p then p - n
             else if (d : Int) < p then (d : Int) else p) := by
  simp [transformCursorPosition, transformStep]

/-- A range fully contained in the span deleted by `[Retain(d), Delete(n)]`
transforms to a range of length `0`. -/
theorem contained_range_collapse (r : Range) (d n : Nat)
    (h0 : 0 ≤ r.length) (h1 : (d : Int) ≤ r.index)
    (h2 : r.index + r.length ≤ (d : Int) + n) :
    (transformHighlightRange r [QOp.retain d, QOp.delete n]).length = 0 := by
  simp [transformHighlightRange, tp_retain_delete]
  split_ifs <;> omega

/-- JS `Map.set` on an association list: replace in place when the key is
present, append otherwise. -/
def mapSet {β : Type} (m : List (String × β)) (k : String) (v : β) :
    List (String × β) :=
  if m.any (fun p => p.1 == k) then
    m.map (fun p => if p.1 == k then (k, v) else p)
  else m ++ [(k, v)]

/-- An entry of the client's `activeHighlightsRef` map
(src/unnamed/part_003, `interface ActiveHighlight`). -/
structure ActiveHighlight where
  userId : String
  range : Range
  color : String
deriving DecidableEq, Repr

/-- The highlight-transform block of the client text-change handler
(src/unnamed/part_003 lines 769-785): rebuild the highlight map, keeping the
change originator's highlight untouched, transforming every other highlight
through the delta, and dropping those whose transformed length is not
positive. -/
def transformActiveHighlights (actualChangeUserId : Option String)
    (highlights : List (String × ActiveHighlight)) (delta : List QOp) :
    List (String × ActiveHighlight) :=
  highlights.foldl
    (fun acc p =>
      if some p.1 ≠ actualChangeUserId then
        let transformedRange := transformHighlightRange p.2.range delta
        if 0 < transformedRange.length then
          mapSet acc p.1
            { userId := p.2.userId, range := transformedRange, color := p.2.color }
        else acc
      else mapSet acc p.1 p.2)
    []

/-- Claim C7 (confirmed): `transformRange` applies `transformPosition`
independently to `range.index` and `range.index + range.length` and returns
`{ index: newStart, length: max(0, newEnd - newStart) }`; a range fully
contained in a deleted span transforms to length `0`, and the text-change
handler then drops the corresponding highlight from the active-highlight
map. -/
theorem C7_range_transform :
    (∀ (r : Range) (delta : List QOp),
        transformHighlightRange r delta =
          { index := transformCursorPosition r.index delta,
            length := max 0 (transformCursorPosition (r.index + r.length) delta -
              transformCursorPosition r.index delta) }) ∧
    (∀ (r : Range) (d n : Nat), 0 ≤ r.length → (d : Int) ≤ r.index →
        r.index + r.length ≤ (d : Int) + n →
        (transformHighlightRange r [QOp.retain d, QOp.delete n]).length = 0) ∧
    (∀ (cu : Option String) (uid : String) (h : ActiveHighlight) (d n : Nat),
        some uid ≠ cu → 0 ≤ h.range.length → (d : Int) ≤ h.range.index →
        h.range.index + h.range.length ≤ (d : Int) + n →
        transformActiveHighlights cu [(uid, h)] [QOp.retain d, QOp.delete n] = []) := by
  refine ⟨fun r delta => rfl, fun r d n h0 h1 h2 => contained_range_collapse r d n h0 h1 h2, ?_⟩
  intro cu uid h d n hcu h0 h1 h2
  have hz := contained_range_collapse h.range d n h0 h1 h2
  simp [transformActiveHighlights, hcu, hz]

/-- Witness for C7: the collapse and drop clauses of `C7_range_transform`
evaluated on a concrete highlight swallowed by a concrete deletion. -/
theorem C7_range_transform_witness :
    (transformHighlightRange { index := 2, length := 3 }
      [QOp.retain 1, QOp.delete 5]).length = 0 ∧
    transformActiveHighlights (some "other")
      [("u1", { userId := "u1", range := { index := 2, length := 3 }, color := "#FF6B6B" })]
      [QOp.retain 1, QOp.delete 5] = [] :=
  ⟨C7_range_transform.2.1 { index := 2, length := 3 } 1 5 (by decide) (by decide) (by decide),
   C7_range_transform.2.2 (some "other") "u1"
     { userId := "u1", range := { index := 2, length := 3 }, color := "#FF6B6B" } 1 5
     (by decide) (by decide) (by decide) (by decide)⟩

/-- Claim C8 (confirmed): a pure-retain operation is a fixed point of the
position transform for every non-negative `p`, and the result of
`transformCursorPosition` is always floored at `0`. -/
theorem C8_retain_identity_nonneg :
    (∀ (p : Int) (len : Nat), 0 ≤ p →
        transformCursorPosition p [QOp.retain len] = p) ∧
    (∀ (p : Int) (delta : List QOp), 0 ≤ transformCursorPosition p delta) := by
  constructor
  · intro p len hp
    simp [transformCursorPosition, transformStep]
    omega
  · intro p delta
    unfold transformCursorPosition
    exact le_max_left 0 _

/-- Witness for C8: the retain clause of `C8_retain_identity_nonneg` at a
concrete position, plus the floor clause at a negative position. -/
theorem C8_retain_identity_nonneg_witness :
    transformCursorPosition 4 [QOp.retain 7] = 4 ∧
    0 ≤ transformCursorPosition (-2) [QOp.delete 5] :=
  ⟨C8_retain_identity_nonneg.1 4 7 (by decide),
   C8_retain_identity_nonneg.2 (-2) [QOp.delete 5]⟩

/-- JS `Map.get` on an association list: first binding of the key. -/
def mapGet {β : Type} (m : List (String × β)) (k : String) : Option β :=
  match m with
  | [] => none
  | p :: t => if p.1 = k then some p.2 else mapGet t k

/-- `Map.set` followed by `Map.get` of the same key yields the new value. -/
theorem mapGet_mapSet_self {β : Type} (m : List (String × β)) (k : String) (v : β) :
    mapGet (mapSet m k v) k = some v := by
  induction m with
  | nil => simp [mapSet, mapGet]
  | cons a t ih =>
    by_cases h1 : a.1 = k
    · simp [mapSet, List.any_cons, h1, mapGet]
    · by_cases h2 : t.any (fun p => p.1 == k) = true
      · have ht : mapSet t k v = t.map (fun p => if p.1 == k then (k, v) else p) := by
          simp [mapSet, h2]
        rw [ht] at ih
        simp only [beq_iff_eq] at ih
        simp [mapSet, List.any_cons, h1, h2, mapGet, ih]
      · have ht : mapSet t k v = t ++ [(k, v)] := by
          simp [mapSet, h2]
        rw [ht] at ih
        simp [mapSet, List.any_cons, h1, h2, mapGet, ih]

/-- A participant record as stored by the server's `user-join` handler
(src/unnamed/part_000 lines 92-98). -/
structure User where
  id : String
  name : String
  color : String
  cursor : Option Range
  socketId : String
deriving DecidableEq, Repr

/-- A per-document session: the composed delta and the
`connectionId -> participant` directory (src/unnamed/part_000 line 21). -/
structure Doc where
  delta : List QOp
  users : List (String × User)
deriving DecidableEq, Repr

/-- The session created on first access: `new Delta()` and an empty user
map. -/
def emptyDoc : Doc :=
  { delta := [], users := [] }

/-- `getOrCreateDocument` (src/unnamed/part_000 lines 24-33): return the
existing session, or create an empty one and return it, together with the
(possibly updated) document map. -/
def getOrCreateDocument (documents : List (String × Doc)) (documentId : String) :
    Doc × List (String × Doc) :=
  match mapGet documents documentId with
  | some doc => (doc, documents)
  | none => (emptyDoc, mapSet documents documentId emptyDoc)

/-- The socket.io room of a document id: the connections that executed
`socket.join(documentId)`. -/
def roomMembers (rooms : List (String × List String)) (documentId : String) :
    List String :=
  (mapGet rooms documentId).getD []

/-- `socket.join(documentId)`: add the connection to the document's room
(idempotent). -/
def joinRoom (rooms : List (String × List String)) (documentId sid : String) :
    List (String × List String) :=
  let ms := roomMembers rooms documentId
  if sid ∈ ms then rooms else mapSet rooms documentId (ms ++ [sid])

/-- Recipients of `socket.to(documentId).emit(...)`: every room member
except the sender. -/
def socketTo (rooms : List (String × List String)) (documentId sid : String) :
    List String :=
  (roomMembers rooms documentId).filter (fun m => m != sid)

/-- Recipients of `io.to(documentId).emit(...)`: every room member,
including the sender when it has joined. -/
def ioTo (rooms : List (String × List String)) (documentId : String) :
    List String :=
  roomMembers rooms documentId

/-- The global server state: the document map and room membership. -/
structure ServerState where
  documents : List (String × Doc)
  rooms : List (String × List String)
deriving DecidableEq, Repr

/-- The payload of a `user-join` event: `{ documentId, ...userInfo }`. -/
structure JoinData where
  documentId : Option String
  id : String
  name : String
  color : String
deriving DecidableEq, Repr

/-- Inbound client-to-server events handled by src/unnamed/part_000. -/
inductive CEvent where
  | userJoin (userData : JoinData)
  | textChange (documentId : Option String) (delta : List QOp) (source : String)
  | resetDocument (documentId : Option String)
  | selectionChange (documentId : Option String) (range : Option Range) (source : String)
  | highlightChange (documentId : Option String) (range : Option Range) (source : String)
deriving DecidableEq, Repr

/-- Outbound server-to-client events; the `-${documentId}` suffix of the
wire names is carried as the `documentId` field of `Broadcast`. -/
inductive SEvent where
  | loadDocument (ops : List QOp)
  | textChange (userId : String) (delta : List QOp)
  | usersUpdate (users : List User)
  | cursorChange (userId : String) (user : User) (range : Option Range)
  | highlightChange (userId : String) (user : User) (range : Option Range)
deriving DecidableEq, Repr

/-- One emitted message: the document scope, the payload, and the concrete
recipient connections. -/
structure Broadcast where
  documentId : String
  payload : SEvent
  recipients : List String
deriving DecidableEq, Repr

/-- The participant record built by the `user-join` handler
(src/unnamed/part_000 lines 92-98). -/
def mkUser (userData : JoinData) (sid : String) : User :=
  { id := userData.id, name := userData.name, color := userData.color,
    cursor := none, socketId := sid }

/-- The reconnection-dedup loop of the `user-join` handler
(src/unnamed/part_000 lines 85-90): drop every user with the same name on a
different connection. -/
def dedupUsers (users : List (String × User)) (name sid : String) :
    List (String × User) :=
  users.filter (fun p => !(p.2.name == name && p.1 != sid))

/-- The full directory update of the `user-join` handler: dedup by name,
then `users.set(socket.id, ...)`. -/
def joinedUsers (users : List (String × User)) (sid : String) (userData : JoinData) :
    List (String × User) :=
  mapSet (dedupUsers users userData.name sid) sid (mkUser userData sid)

/-- One socket.io event dispatch of the server in src/unnamed/part_000.
`composeFn` stands for the external `Delta.compose` of the quill-delta
library; its `none` result models the exception caught by the text-change
handler.  Returns the new server state and the list of emitted messages, in
emission order. -/
def serverStep (composeFn : List QOp → List QOp → Option (List QOp))
    (st : ServerState) (sid : String) (ev : CEvent) :
    ServerState × List Broadcast :=
  match ev with
  | .userJoin userData =>
      match userData.documentId with
      | none => (st, [])
      | some d =>
          let rooms1 := joinRoom st.rooms d sid
          let gc := getOrCreateDocument st.documents d
          let users2 := joinedUsers gc.1.users sid userData
          let loadMsg : Broadcast :=
            { documentId := d, payload := .loadDocument gc.1.delta, recipients := [sid] }
          let catchup : List Broadcast :=
            (users2.filter (fun p => p.1 != sid && p.2.cursor.isSome)).map
              (fun p => { documentId := d, payload := .cursorChange p.1 p.2 p.2.cursor,
                          recipients := [sid] })
          let usersMsg : Broadcast :=
            { documentId := d, payload := .usersUpdate (users2.map Prod.snd),
              recipients := ioTo rooms1 d }
          ({ documents := mapSet gc.2 d { delta := gc.1.delta, users := users2 },
             rooms := rooms1 },
           loadMsg :: catchup ++ [usersMsg])
  | .textChange documentId delta source =>
      if source == "user" then
        match documentId with
        | none => (st, [])
        | some d =>
            let gc := getOrCreateDocument st.documents d
            match composeFn gc.1.delta delta with
            | some newDelta =>
                ({ documents := mapSet gc.2 d { delta := newDelta, users := gc.1.users },
                   rooms := st.rooms },
                 [{ documentId := d, payload := .textChange sid delta,
                    recipients := socketTo st.rooms d sid }])
            | none => ({ documents := gc.2, rooms := st.rooms }, [])
      else (st, [])
  | .resetDocument documentId =>
      match documentId with
      | none => (st, [])
      | some d =>
          let gc := getOrCreateDocument st.documents d
          ({ documents := mapSet gc.2 d { delta := [], users := gc.1.users },
             rooms := st.rooms },
           [{ documentId := d, payload := .loadDocument [], recipients := ioTo st.rooms d }])
  | .selectionChange documentId range source =>
      if source == "user" then
        match documentId with
        | none => (st, [])
        | some d =>
            let gc := getOrCreateDocument st.documents d
            match mapGet gc.1.users sid with
            | some u =>
                let u2 : User := { id := u.id, name := u.name, color := u.color,
                                   cursor := range, socketId := u.socketId }
                ({ documents := mapSet gc.2 d
                     { delta := gc.1.delta, users := mapSet gc.1.users sid u2 },
                   rooms := st.rooms },
                 [{ documentId := d, payload := .cursorChange sid u2 range,
                    recipients := socketTo st.rooms d sid }])
            | none => ({ documents := gc.2, rooms := st.rooms }, [])
      else (st, [])
  | .highlightChange documentId range source =>
      if source == "user" then
        match documentId with
        | none => (st, [])
        | some d =>
            let gc := getOrCreateDocument st.documents d
            match mapGet gc.1.users sid with
            | some u =>
                (({ documents := gc.2, rooms := st.rooms } : ServerState),
                 [{ documentId := d, payload := .highlightChange sid u range,
                    recipients := socketTo st.rooms d sid }])
            | none => ({ documents := gc.2, rooms := st.rooms }, [])
      else (st, [])

/-- Sequential processing of a list of inbound events from one connection,
accumulating emissions in order. -/
def serverRun (composeFn : List QOp → List QOp → Option (List QOp)) :
    ServerState → String → List CEvent → ServerState × List Broadcast
  | st, _, [] => (st, [])
  | st, sid, ev :: evs =>
      let r := serverStep composeFn st sid ev
      let rest := serverRun composeFn r.1 sid evs
      (rest.1, r.2 ++ rest.2)

/-- The client's `quill.on('selection-change')` listener
(src/unnamed/part_003 lines 951-963): on a user selection it emits a
`selection-change` event, followed by a `highlight-change` event when the
range has positive length. -/
def clientSelectionChange (documentId : String) (range : Option Range)
    (source : String) : List CEvent :=
  if source == "user" then
    CEvent.selectionChange (some documentId) range source ::
      (match range with
       | some r =>
           if 0 < r.length then
             [CEvent.highlightChange (some documentId) (some r) source]
           else []
       | none => [])
  else []

/-- The inbound events whose handlers relay via `socket.to(...)`
(text-change, selection-change, highlight-change). -/
def relayedEvent : CEvent → Bool
  | .textChange _ _ _ => true
  | .selectionChange _ _ _ => true
  | .highlightChange _ _ _ => true
  | _ => false

/-- Claim C4 (confirmed): when composing an incoming operation onto an
existing session's state fails, the text-change handler discards the
operation, broadcasts nothing, and leaves the whole server state — in
particular the session's DocumentState — exactly as it was. -/
theorem C4_compose_failure (composeFn : List QOp → List QOp → Option (List QOp))
    (st : ServerState) (sid d : String) (delta : List QOp) (doc : Doc)
    (hdoc : mapGet st.documents d = some doc)
    (hfail : composeFn doc.delta delta = none) :
    serverStep composeFn st sid (CEvent.textChange (some d) delta "user") = (st, []) := by
  simp [serverStep, getOrCreateDocument, hdoc, hfail]

/-- Witness for C4: a failing compose on a concrete one-session state
changes nothing and emits nothing. -/
theorem C4_compose_failure_witness :
    serverStep (fun _ _ => none)
      { documents := [("doc1", { delta := [QOp.insert "hi"], users := [] })],
        rooms := [("doc1", ["s1"])] }
      "s1" (CEvent.textChange (some "doc1") [QOp.delete 2] "user") =
      ({ documents := [("doc1", { delta := [QOp.insert "hi"], users := [] })],
         rooms := [("doc1", ["s1"])] }, []) :=
  C4_compose_failure (fun _ _ => none)
    { documents := [("doc1", { delta := [QOp.insert "hi"], users := [] })],
      rooms := [("doc1", ["s1"])] }
    "s1" "doc1" [QOp.delete 2] { delta := [QOp.insert "hi"], users := [] }
    (by decide) rfl

/-- Claim C9 (confirmed): a text-change, selection-change, or
highlight-change event whose `source` is not `"user"` is ignored: the
handler changes no server state and emits nothing. -/
theorem C9_non_user_source (composeFn : List QOp → List QOp → Option (List QOp))
    (st : ServerState) (sid : String) (dOpt : Option String) (delta : List QOp)
    (r : Option Range) (source : String) (h : source ≠ "user") :
    serverStep composeFn st sid (CEvent.textChange dOpt delta source) = (st, []) ∧
    serverStep composeFn st sid (CEvent.selectionChange dOpt r source) = (st, []) ∧
    serverStep composeFn st sid (CEvent.highlightChange dOpt r source) = (st, []) := by
  have hb : (source == "user") = false := by simp [h]
  refine ⟨?_, ?_, ?_⟩ <;> simp [serverStep, hb]

/-- Witness for C9: `C9_non_user_source` at source `"api"` on a concrete
state. -/
theorem C9_non_user_source_witness :
    serverStep (fun _ _ => none)
      { documents := [("doc1", emptyDoc)], rooms := [("doc1", ["s1"])] }
      "s1" (CEvent.textChange (some "doc1") [QOp.insert "x"] "api") =
      ({ documents := [("doc1", emptyDoc)], rooms := [("doc1", ["s1"])] }, []) ∧
    serverStep (fun _ _ => none)
      { documents := [("doc1", emptyDoc)], rooms := [("doc1", ["s1"])] }
      "s1" (CEvent.selectionChange (some "doc1") none "api") =
      ({ documents := [("doc1", emptyDoc)], rooms := [("doc1", ["s1"])] }, []) ∧
    serverStep (fun _ _ => none)
      { documents := [("doc1", emptyDoc)], rooms := [("doc1", ["s1"])] }
      "s1" (CEvent.highlightChange (some "doc1") none "api") =
      ({ documents := [("doc1", emptyDoc)], rooms := [("doc1", ["s1"])] }, []) :=
  C9_non_user_source (fun _ _ => none)
    { documents := [("doc1", emptyDoc)], rooms := [("doc1", ["s1"])] }
    "s1" (some "doc1") [QOp.insert "x"] none "api" (by decide)

/-- Claim C10 (confirmed): a selection-change or highlight-change event from
a connection that is not in the session's participant directory is silently
dropped — no cursor is stored, nothing is broadcast — yet the handler still
ensures the session exists via `getOrCreateDocument`, creating an empty one
when it was absent. -/
theorem C10_unjoined_participant (composeFn : List QOp → List QOp → Option (List QOp))
    (st : ServerState) (sid d : String) (r : Option Range)
    (hnm : mapGet (getOrCreateDocument st.documents d).1.users sid = none) :
    serverStep composeFn st sid (CEvent.selectionChange (some d) r "user") =
      ({ documents := (getOrCreateDocument st.documents d).2, rooms := st.rooms }, []) ∧
    serverStep composeFn st sid (CEvent.highlightChange (some d) r "user") =
      ({ documents := (getOrCreateDocument st.documents d).2, rooms := st.rooms }, []) ∧
    (mapGet st.documents d = none →
      mapGet (getOrCreateDocument st.documents d).2 d = some emptyDoc) := by
  refine ⟨?_, ?_, ?_⟩
  · simp [serverStep, hnm]
  · simp [serverStep, hnm]
  · intro h
    simp [getOrCreateDocument, h, mapGet_mapSet_self]

/-- Witness for C10: an unjoined connection's selection on a fresh server
creates the session but stores and broadcasts nothing. -/
theorem C10_unjoined_participant_witness :
    serverStep (fun _ _ => none) { documents := [], rooms := [] }
      "s1" (CEvent.selectionChange (some "doc1") (some { index := 1, length := 2 }) "user") =
      ({ documents := (getOrCreateDocument [] "doc1").2, rooms := [] }, []) ∧
    serverStep (fun _ _ => none) { documents := [], rooms := [] }
      "s1" (CEvent.highlightChange (some "doc1") (some { index := 1, length := 2 }) "user") =
      ({ documents := (getOrCreateDocument [] "doc1").2, rooms := [] }, []) ∧
    (mapGet ([] : List (String × Doc)) "doc1" = none →
      mapGet (getOrCreateDocument [] "doc1").2 "doc1" = some emptyDoc) :=
  C10_unjoined_participant (fun _ _ => none) { documents := [], rooms := [] }
    "s1" "doc1" (some { index := 1, length := 2 }) (by decide)

/-- Claim C5 (confirmed): a user selection with positive length from a
joined participant results — through the client's selection-change listener
and the server's selection-change and highlight-change handlers — in both a
cursor-change and a highlight-change broadcast carrying that participant's
identity and the range, addressed to every other room subscriber of the
document. -/
theorem C5_selection_highlight (composeFn : List QOp → List QOp → Option (List QOp))
    (st : ServerState) (sid d : String) (r : Range) (doc : Doc) (u : User)
    (hdoc : mapGet st.documents d = some doc)
    (hu : mapGet doc.users sid = some u)
    (hr : 0 < r.length) :
    ({ documentId := d,
       payload := SEvent.cursorChange sid
         { id := u.id, name := u.name, color := u.color, cursor := some r,
           socketId := u.socketId } (some r),
       recipients := socketTo st.rooms d sid } : Broadcast) ∈
      (serverRun composeFn st sid (clientSelectionChange d (some r) "user")).2 ∧
    ({ documentId := d,
       payload := SEvent.highlightChange sid
         { id := u.id, name := u.name, color := u.color, cursor := some r,
           socketId := u.socketId } (some r),
       recipients := socketTo st.rooms d sid } : Broadcast) ∈
      (serverRun composeFn st sid (clientSelectionChange d (some r) "user")).2 := by
  have hc : clientSelectionChange d (some r) "user" =
      [CEvent.selectionChange (some d) (some r) "user",
       CEvent.highlightChange (some d) (some r) "user"] := by
    simp [clientSelectionChange, hr]
  rw [hc]
  simp [serverRun, serverStep, getOrCreateDocument, hdoc, hu, mapGet_mapSet_self]

/-- Witness for C5: a concrete joined participant selecting a concrete
non-empty range produces both broadcasts. -/
theorem C5_selection_highlight_witness :
    ({ documentId := "doc1",
       payload := SEvent.cursorChange "s1"
         { id := "u1", name := "Alice", color := "#4ECDC4", cursor := some { index := 1, length := 2 },
           socketId := "s1" } (some { index := 1, length := 2 }),
       recipients := socketTo [("doc1", ["s1", "s2"])] "doc1" "s1" } : Broadcast) ∈
      (serverRun (fun _ _ => none)
        { documents := [("doc1",
            { delta := [],
              users := [("s1",
                { id := "u1", name := "Alice", color := "#4ECDC4", cursor := none,
                  socketId := "s1" })] })],
          rooms := [("doc1", ["s1", "s2"])] }
        "s1" (clientSelectionChange "doc1" (some { index := 1, length := 2 }) "user")).2 ∧
    ({ documentId := "doc1",
       payload := SEvent.highlightChange "s1"
         { id := "u1", name := "Alice", color := "#4ECDC4", cursor := some { index := 1, length := 2 },
           socketId := "s1" } (some { index := 1, length := 2 }),
       recipients := socketTo [("doc1", ["s1", "s2"])] "doc1" "s1" } : Broadcast) ∈
      (serverRun (fun _ _ => none)
        { documents := [("doc1",
            { delta := [],
              users := [("s1",
                { id := "u1", name := "Alice", color := "#4ECDC4", cursor := none,
                  socketId := "s1" })] })],
          rooms := [("doc1", ["s1", "s2"])] }
        "s1" (clientSelectionChange "doc1" (some { index := 1, length := 2 }) "user")).2 :=
  C5_selection_highlight (fun _ _ => none)
    { documents := [("doc1",
        { delta := [],
          users := [("s1",
            { id := "u1", name := "Alice", color := "#4ECDC4", cursor := none,
              socketId := "s1" })] })],
      rooms := [("doc1", ["s1", "s2"])] }
    "s1" "doc1" { index := 1, length := 2 }
    { delta := [],
      users := [("s1",
        { id := "u1", name := "Alice", color := "#4ECDC4", cursor := none,
          socketId := "s1" })] }
    { id := "u1", name := "Alice", color := "#4ECDC4", cursor := none, socketId := "s1" }
    (by decide) (by decide) (by decide)

/-- `Map.set` puts the new binding in the map. -/
theorem mem_mapSet_self {β : Type} (m : List (String × β)) (k : String) (v : β) :
    (k, v) ∈ mapSet m k v := by
  unfold mapSet
  by_cases h : m.any (fun p => p.1 == k)
  · rw [if_pos h]
    obtain ⟨p, hp, hpk⟩ := List.any_eq_true.mp h
    refine List.mem_map.mpr ⟨p, hp, ?_⟩
    simp [hpk]
  · rw [if_neg h]
    exact List.mem_append_right _ (by simp)

/-- `Map.set` keeps every binding whose key differs from the set key. -/
theorem mem_mapSet_of_ne {β : Type} (m : List (String × β)) (k : String) (v : β)
    (q : String × β) (hq : q ∈ m) (hk : q.1 ≠ k) : q ∈ mapSet m k v := by
  unfold mapSet
  by_cases h : m.any (fun p => p.1 == k)
  · rw [if_pos h]
    refine List.mem_map.mpr ⟨q, hq, ?_⟩
    simp [hk]
  · rw [if_neg h]
    exact List.mem_append_left _ hq

/-- If every binding of `m` satisfying `P` already has key `k`, then after
`Map.set m k v` every binding satisfying `P` is the new binding. -/
theorem mapSet_unique_of_key {β : Type} (P : β → Prop) (m : List (String × β))
    (k : String) (v : β) (hm : ∀ q ∈ m, P q.2 → q.1 = k) :
    ∀ p ∈ mapSet m k v, P p.2 → p = (k, v) := by
  intro p hp hP
  unfold mapSet at hp
  by_cases h : m.any (fun q => q.1 == k)
  · rw [if_pos h] at hp
    obtain ⟨q, hq, hfq⟩ := List.mem_map.mp hp
    by_cases hk : q.1 = k
    · rw [← hfq]
      simp [hk]
    · have hb : (q.1 == k) = false := by simp [hk]
      rw [hb] at hfq
      simp at hfq
      rw [← hfq] at hP
      exact absurd (hm q hq hP) hk
  · rw [if_neg h] at hp
    rcases List.mem_append.mp hp with h1 | h2
    · have hkey := hm p h1 hP
      rw [List.any_eq_true] at h
      exact absurd ⟨p, h1, by simp [hkey]⟩ h
    · simpa using h2

/-- `Map.set` preserves distinctness of keys. -/
theorem mapSet_keys_nodup {β : Type} (m : List (String × β)) (k : String) (v : β)
    (h : (m.map Prod.fst).Nodup) : ((mapSet m k v).map Prod.fst).Nodup := by
  unfold mapSet
  by_cases ha : m.any (fun p => p.1 == k)
  · rw [if_pos ha]
    have heq : (m.map (fun p => if p.1 == k then (k, v) else p)).map Prod.fst =
        m.map Prod.fst := by
      rw [List.map_map]
      refine List.map_congr_left ?_
      intro p _
      by_cases hk : p.1 = k
      · simp [hk]
      · simp [hk]
    rw [heq]
    exact h
  · rw [if_neg ha]
    have hk : k ∉ m.map Prod.fst := by
      intro hmem
      obtain ⟨p, hp, hpk⟩ := List.mem_map.mp hmem
      rw [List.any_eq_true] at ha
      exact ha ⟨p, hp, by simp [hpk]⟩
    simp [List.nodup_append, h]
    intro x hx
    exact hk (List.mem_map.mpr ⟨(k, x), hx, rfl⟩)

/-- Every surviving binding of the dedup loop whose user has the joiner's
name sits on the joiner's connection. -/
theorem dedup_key_fact (users : List (String × User)) (name sid : String) :
    ∀ q ∈ dedupUsers users name sid, q.2.name = name → q.1 = sid := by
  intro q hq hname
  have h := (List.mem_filter.mp hq).2
  simp [hname] at h
  exact h

/-- Claim C6 (amended): after a `user-join` for a document, the session's
participant directory contains the joiner's binding, every binding whose
user carries the joiner's name is exactly that binding (so with keys
distinct, exactly one participant has the joiner's name — the one from the
most recent connection), keys stay distinct, and every participant with a
different name *on a different connection* is unaffected.  (The claim as
frozen also asserted that participants with a different name on the *same*
connection are unaffected; they are overwritten, see
`C6_counterexample`.) -/
theorem C6_join_dedup (composeFn : List QOp → List QOp → Option (List QOp))
    (st : ServerState) (sid : String) (jd : JoinData) (d : String)
    (hd : jd.documentId = some d)
    (hnd : ((getOrCreateDocument st.documents d).1.users.map Prod.fst).Nodup) :
    ∃ doc2 : Doc,
      mapGet (serverStep composeFn st sid (CEvent.userJoin jd)).1.documents d = some doc2 ∧
      (sid, mkUser jd sid) ∈ doc2.users ∧
      (∀ p ∈ doc2.users, p.2.name = jd.name → p = (sid, mkUser jd sid)) ∧
      (doc2.users.map Prod.fst).Nodup ∧
      (∀ q ∈ (getOrCreateDocument st.documents d).1.users,
        q.2.name ≠ jd.name → q.1 ≠ sid → q ∈ doc2.users) := by
  refine ⟨{ delta := (getOrCreateDocument st.documents d).1.delta,
            users := joinedUsers (getOrCreateDocument st.documents d).1.users sid jd },
          ?_, ?_, ?_, ?_, ?_⟩
  · simp [serverStep, hd, joinedUsers, mapGet_mapSet_self]
  · exact mem_mapSet_self _ sid (mkUser jd sid)
  · exact mapSet_unique_of_key (fun u => u.name = jd.name) _ sid (mkUser jd sid)
      (dedup_key_fact _ jd.name sid)
  · refine mapSet_keys_nodup _ sid (mkUser jd sid) ?_
    exact List.Nodup.sublist (List.Sublist.map Prod.fst (List.filter_sublist _)) hnd
  · intro q hq hname hkey
    refine mem_mapSet_of_ne _ sid (mkUser jd sid) q ?_ hkey
    refine List.mem_filter.mpr ⟨hq, ?_⟩
    simp [hname]

/-- Counterexample for C6 as frozen: a `user-join` on the same connection id
with a new display name overwrites the differently-named participant stored
for that connection (`users.set(socket.id, ...)` replaces it), so "every
participant with a different name is unaffected" fails. -/
theorem C6_counterexample :
    mapGet (serverStep (fun _ _ => none)
        { documents := [("doc1",
            { delta := [],
              users := [("s1", { id := "u0", name := "Bob", color := "#111111",
                                 cursor := none, socketId := "s1" })] })],
          rooms := [("doc1", ["s1"])] }
        "s1" (CEvent.userJoin { documentId := some "doc1", id := "u1",
                                name := "Alice", color := "#222222" })).1.documents
      "doc1" =
      some { delta := [],
             users := [("s1", { id := "u1", name := "Alice", color := "#222222",
                                cursor := none, socketId := "s1" })] } := by
  decide

/-- Witness for C6: the reconnection scenario of the spec — "Alice" joins
again from a new connection id; the directory retains exactly the new
"Alice" binding, and the differently-named "Carol" on her own connection is
untouched. -/
theorem C6_join_dedup_witness :
    ∃ doc2 : Doc,
      mapGet (serverStep (fun _ _ => none)
          { documents := [("doc1",
              { delta := [],
                users := [("s1", { id := "u1", name := "Alice", color := "#FF6B6B",
                                   cursor := none, socketId := "s1" }),
                          ("s3", { id := "u3", name := "Carol", color := "#96CEB4",
                                   cursor := none, socketId := "s3" })] })],
            rooms := [("doc1", ["s1", "s3"])] }
          "s2" (CEvent.userJoin { documentId := some "doc1", id := "u1",
                                  name := "Alice", color := "#FF6B6B" })).1.documents
        "doc1" = some doc2 ∧
      ("s2", mkUser { documentId := some "doc1", id := "u1", name := "Alice",
                      color := "#FF6B6B" } "s2") ∈ doc2.users ∧
      (∀ p ∈ doc2.users, p.2.name = "Alice" →
        p = ("s2", mkUser { documentId := some "doc1", id := "u1", name := "Alice",
                            color := "#FF6B6B" } "s2")) ∧
      (doc2.users.map Prod.fst).Nodup ∧
      (∀ q ∈ (getOrCreateDocument
          [("doc1",
            { delta := [],
              users := [("s1", { id := "u1", name := "Alice", color := "#FF6B6B",
                                 cursor := none, socketId := "s1" }),
                        ("s3", { id := "u3", name := "Carol", color := "#96CEB4",
                                 cursor := none, socketId := "s3" })] })] "doc1").1.users,
        q.2.name ≠ "Alice" → q.1 ≠ "s2" → q ∈ doc2.users) :=
  C6_join_dedup (fun _ _ => none)
    { documents := [("doc1",
        { delta := [],
          users := [("s1", { id := "u1", name := "Alice", color := "#FF6B6B",
                             cursor := none, socketId := "s1" }),
                    ("s3", { id := "u3", name := "Carol", color := "#96CEB4",
                             cursor := none, socketId := "s3" })] })],
      rooms := [("doc1", ["s1", "s3"])] }
    "s2" { documentId := some "doc1", id := "u1", name := "Alice", color := "#FF6B6B" }
    "doc1" rfl (by decide)

/-- `socket.to(d)` recipients are room members of `d`. -/
theorem socketTo_subset (rooms : List (String × List String)) (d sid : String) :
    socketTo rooms d sid ⊆ roomMembers rooms d :=
  fun _ hx => List.mem_of_mem_filter hx

/-- The sender is never among `socket.to(d)` recipients. -/
theorem not_mem_socketTo (rooms : List (String × List String)) (d sid : String) :
    sid ∉ socketTo rooms d sid := by
  simp [socketTo, List.mem_filter]

/-- After `socket.join(d)`, the joining connection is a member of room `d`. -/
theorem mem_roomMembers_joinRoom (rooms : List (String × List String)) (d sid : String) :
    sid ∈ roomMembers (joinRoom rooms d sid) d := by
  by_cases h : sid ∈ roomMembers rooms d
  · simp [joinRoom, h]
  · have h2 : sid ∉ (mapGet rooms d).getD [] := h
    simp [joinRoom, roomMembers, h2, mapGet_mapSet_self]

/-- Counterexample for C3 as frozen: the reload emitted by `reset-document`
uses `io.to(documentId)`, which includes the sender — here connection `s1`
resets `doc1` and receives its own reload. -/
theorem C3_counterexample :
    (serverStep (fun _ _ => none)
        { documents := [("doc1", emptyDoc)], rooms := [("doc1", ["s1", "s2"])] }
        "s1" (CEvent.resetDocument (some "doc1"))).2.map Broadcast.recipients =
      [["s1", "s2"]] ∧
    "s1" ∈ (["s1", "s2"] : List String) := by
  decide

/-- Claim C3 (amended): every broadcast of every handler is delivered only
to connections in the room of its `documentId`; for the relayed event kinds
— text-change, the cursor-change relay of selection-change, and
highlight-change — the sender is excluded.  (The claim as frozen also
excluded the sender from the `users-update` presence broadcast and the
reload emitted by reset; those use `io.to(documentId)` and include the
sender, see `C3_counterexample`.) -/
theorem C3_routing (composeFn : List QOp → List QOp → Option (List QOp))
    (st : ServerState) (sid : String) (ev : CEvent) :
    ∀ b ∈ (serverStep composeFn st sid ev).2,
      b.recipients ⊆ roomMembers (serverStep composeFn st sid ev).1.rooms b.documentId ∧
      (relayedEvent ev = true → sid ∉ b.recipients) := by
  cases ev with
  | userJoin jd =>
      rcases jd with ⟨dOpt, jid, jname, jcolor⟩
      rcases dOpt with _ | d
      · simp [serverStep]
      · intro b hb
        simp only [serverStep] at hb ⊢
        have hself : sid ∈ roomMembers (joinRoom st.rooms d sid) d :=
          mem_roomMembers_joinRoom st.rooms d sid
        rcases List.mem_cons.mp hb with rfl | hb2
        · refine ⟨?_, by simp [relayedEvent]⟩
          intro x hx
          simp only [List.mem_singleton] at hx
          subst hx
          exact hself
        · rcases List.mem_append.mp hb2 with hc | hu
          · obtain ⟨p, hp, rfl⟩ := List.mem_map.mp hc
            refine ⟨?_, by simp [relayedEvent]⟩
            intro x hx
            simp only [List.mem_singleton] at hx
            subst hx
            exact hself
          · simp only [List.mem_singleton] at hu
            subst hu
            exact ⟨fun x hx => hx, by simp [relayedEvent]⟩
  | textChange dOpt delta source =>
      by_cases hs : (source == "user") = true
      · rcases dOpt with _ | d
        · simp [serverStep, hs]
        · intro b hb
          simp only [serverStep, hs, if_true] at hb ⊢
          rcases hcf : composeFn (getOrCreateDocument st.documents d).1.delta delta
            with _ | newDelta
          · simp [hcf] at hb
          · rw [hcf] at hb
            simp only [List.mem_singleton] at hb
            subst hb
            exact ⟨socketTo_subset st.rooms d sid,
                   fun _ => not_mem_socketTo st.rooms d sid⟩
      · simp [serverStep, hs]
  | resetDocument dOpt =>
      rcases dOpt with _ | d
      · simp [serverStep]
      · intro b hb
        simp only [serverStep, List.mem_singleton] at hb ⊢
        subst hb
        exact ⟨fun x hx => hx, by simp [relayedEvent]⟩
  | selectionChange dOpt r source =>
      by_cases hs : (source == "user") = true
      · rcases dOpt with _ | d
        · simp [serverStep, hs]
        · intro b hb
          simp only [serverStep, hs, if_true] at hb ⊢
          rcases hu : mapGet (getOrCreateDocument st.documents d).1.users sid with _ | u
          · simp [hu] at hb
          · rw [hu] at hb
            simp only [List.mem_singleton] at hb
            subst hb
            exact ⟨socketTo_subset st.rooms d sid,
                   fun _ => not_mem_socketTo st.rooms d sid⟩
      · simp [serverStep, hs]
  | highlightChange dOpt r source =>
      by_cases hs : (source == "user") = true
      · rcases dOpt with _ | d
        · simp [serverStep, hs]
        · intro b hb
          simp only [serverStep, hs, if_true] at hb ⊢
          rcases hu : mapGet (getOrCreateDocument st.documents d).1.users sid with _ | u
          · simp [hu] at hb
          · rw [hu] at hb
            simp only [List.mem_singleton] at hb
            subst hb
            exact ⟨socketTo_subset st.rooms d sid,
                   fun _ => not_mem_socketTo st.rooms d sid⟩
      · simp [serverStep, hs]

/-- Witness for C3: a concrete highlight-change from `s1` in a two-member
room is routed to a broadcast whose recipients are room members of `doc1`
and exclude the sender. -/
theorem C3_routing_witness :
    ({ documentId := "doc1",
       payload := SEvent.highlightChange "s1"
         { id := "u1", name := "Alice", color := "#FF6B6B", cursor := none,
           socketId := "s1" } (some { index := 0, length := 1 }),
       recipients := ["s2"] } : Broadcast).recipients ⊆
      roomMembers (serverStep (fun _ _ => none)
        { documents := [("doc1",
            { delta := [],
              users := [("s1", { id := "u1", name := "Alice", color := "#FF6B6B",
                                 cursor := none, socketId := "s1" })] })],
          rooms := [("doc1", ["s1", "s2"])] }
        "s1" (CEvent.highlightChange (some "doc1") (some { index := 0, length := 1 })
          "user")).1.rooms "doc1" ∧
    (relayedEvent (CEvent.highlightChange (some "doc1") (some { index := 0, length := 1 })
        "user") = true →
      "s1" ∉ (["s2"] : List String)) :=
  C3_routing (fun _ _ => none)
    { documents := [("doc1",
        { delta := [],
          users := [("s1", { id := "u1", name := "Alice", color := "#FF6B6B",
                             cursor := none, socketId := "s1" })] })],
      rooms := [("doc1", ["s1", "s2"])] }
    "s1" (CEvent.highlightChange (some "doc1") (some { index := 0, length := 1 }) "user")
    { documentId := "doc1",
      payload := SEvent.highlightChange "s1"
        { id := "u1", name := "Alice", color := "#FF6B6B", cursor := none,
          socketId := "s1" } (some { index := 0, length := 1 }),
      recipients := ["s2"] }
    (by decide)

end CollabEditor
